import Mathlib

/-
Verification of the iOptron AZ Mount Pro driver (src/LD_iOptron.py).

The driver is a Python class `AzMountPro` speaking an ASCII serial protocol.
We embed the protocol engine shallowly:

* Python floats are modelled exactly by `ℚ` at the codec layer (all claim
  inputs are decimal values that the float pipeline computes exactly), and by
  `ℝ` for the pure unit converters (which involve pi).
* `int(x)` on a float truncates toward zero; we model it by `pyInt` below.
* The serial transport is an oracle: each operation takes the decoded reply
  bytes it would read as explicit arguments, and returns the list of command
  strings it wrote, the mutated object state, and either a value or the
  Python exception it raised.  A raised exception leaves the object state as
  it was at raise time, exactly as in Python.
* Python `assert` failures, dictionary `KeyError` and list `IndexError` are
  the constructors of `PyError`.  The spec taxonomy maps onto them by site:
  the staging assert in `_Move` is the StateError of the spec, the range
  assert in `_Set_Azimuth` is the ValidationError, the version/model assert
  in `__init__` is the HandshakeError, and `KeyError` from the status
  dictionaries is the ProtocolError.
-/

deriving instance DecidableEq for Except

namespace math

/-- Model of Python `math.radians`: degrees to radians. -/
noncomputable def radians (x : ℝ) : ℝ := x * Real.pi / 180

/-- Model of Python `math.degrees`: radians to degrees. -/
noncomputable def degrees (x : ℝ) : ℝ := x * 180 / Real.pi

end math

/-- Source line 30: `ArcSec_To_Degrees(arcsec) = arcsec / 3600`. -/
noncomputable def ArcSec_To_Degrees (arcsec : ℝ) : ℝ := arcsec / 3600

/-- Source line 34: `ArcSec_To_Radians(arcsec) = math.radians(arcsec / 3600)`. -/
noncomputable def ArcSec_To_Radians (arcsec : ℝ) : ℝ := math.radians (arcsec / 3600)

/-- Source line 38: `Degrees_To_Arcsec(degrees) = degrees * 3600`. -/
noncomputable def Degrees_To_Arcsec (degrees : ℝ) : ℝ := degrees * 3600

/-- Source line 42: `Degrees_To_Radians(degrees) = math.radians(degrees)`. -/
noncomputable def Degrees_To_Radians (degrees : ℝ) : ℝ := math.radians degrees

/-- Source line 46: `Radians_To_Arcsec(radians) = math.degrees(radians) * 3600`. -/
noncomputable def Radians_To_Arcsec (radians : ℝ) : ℝ := math.degrees radians * 3600

/-- Source line 50: `Radians_To_Degrees(radians) = math.degrees(radians)`. -/
noncomputable def Radians_To_Degrees (radians : ℝ) : ℝ := math.degrees radians

namespace AzMountPro

/-- Python exceptions raised by the modelled code paths. -/
inductive PyError where
  | assertionError
  | keyError
  | indexError
deriving DecidableEq

/-- The two per-instance staging flags of `AzMountPro` (source lines 122-123):
`new_Alt` and `new_Az` record whether an altitude and an azimuth have been
staged by a set command and not yet consumed by a move command. -/
structure MountState where
  new_Alt : Bool
  new_Az  : Bool
deriving DecidableEq

/-- Result of running one driver operation against the transport oracle:
`sent` is the list of command strings written to the serial port in order,
`state` is the object state afterwards (on an exception, the state at raise
time, since the Python exceptions here fire before any later mutation), and
`out` is the returned value or the exception. -/
structure OpResult (α : Type) where
  sent  : List String
  state : MountState
  out   : Except PyError α
deriving DecidableEq

/-- Sequencing of two operations on the same object: the second one runs
only when the first did not raise; writes accumulate in order. -/
def OpResult.andThen (r : OpResult α) (f : MountState → α → OpResult β) : OpResult β :=
  match r.out with
  | Except.error e => ⟨r.sent, r.state, Except.error e⟩
  | Except.ok a =>
      let r2 := f r.state a
      ⟨r.sent ++ r2.sent, r2.state, r2.out⟩

/-- Python `int()` applied to an exact rational: truncation toward zero
(the numerator and denominator are coprime and the denominator positive,
so truncating integer division of them is truncation of the fraction). -/
def pyInt (x : ℚ) : ℤ := Int.tdiv x.num (x.den : ℤ)

/-- Python `str.rjust(w, "0")`: left-pad with the character 0 to width `w`. -/
def rjust (s : String) (w : Nat) : String :=
  String.mk (List.replicate (w - s.length) '0') ++ s

/-- Degrees to arcseconds at the exact rational layer (source line 38,
as invoked by the set commands on their default `units="degrees"` path). -/
def Degrees_To_Arcsec_q (d : ℚ) : ℚ := d * 3600

/-- The altitude value as sent on the wire (source lines 362-366):
degrees to arcsec, then `int(altitude / 0.01)`. -/
def altConverted (altitude : ℚ) : ℤ := pyInt (Degrees_To_Arcsec_q altitude / (1 / 100))

/-- The azimuth value as sent on the wire (source lines 434-438). -/
def azConverted (azimuth : ℚ) : ℤ := pyInt (Degrees_To_Arcsec_q azimuth / (1 / 100))

/-- The command string built by `_Set_Altitude` (source lines 370-377):
`":Sa" + sign + str(altitude).rjust(8, "0") + "#"`, where `sign` is `"+"`
for a nonnegative value and the empty string otherwise (the minus sign is
already part of `str(altitude)`). -/
def Sa_cmd (altitude : ℚ) : String :=
  let v : ℤ := altConverted altitude
  let sign : String := if 0 ≤ v then "+" else ""
  ":Sa" ++ sign ++ rjust (toString v) 8 ++ "#"

/-- `_Set_Altitude` (source lines 351-381), default degrees path.  The range
assert is commented out in the source (line 368), so no validation happens:
the command is always formatted and sent.  `alt_Reply` is the decoded
one-byte acknowledgment `int(self._SendMessage(cmd, 1))`; the `new_Alt`
flag is set exactly when it equals 1 (lines 379-380). -/
def Set_Altitude (s : MountState) (altitude : ℚ) (alt_Reply : ℤ) : OpResult ℤ :=
  let s' : MountState := if alt_Reply = 1 then ⟨true, s.new_Az⟩ else s
  ⟨[Sa_cmd altitude], s', Except.ok alt_Reply⟩

/-- The command string built by `_Set_Azimuth` (source line 443):
`":Sz" + str(azimuth).rjust(9, "0") + "#"` (unsigned, 9 wide). -/
def Sz_cmd (azimuth : ℚ) : String :=
  ":Sz" ++ rjust (toString (azConverted azimuth)) 9 ++ "#"

/-- `_Set_Azimuth` (source lines 423-447), default degrees path.  The source
asserts `(azimuth >= 0) and (azimuth <= 129600000)` on the converted value
BEFORE formatting, so on violation nothing is written; the `new_Az` flag is
set exactly when the one-byte acknowledgment equals 1 (lines 445-446). -/
def Set_Azimuth (s : MountState) (azimuth : ℚ) (az_Reply : ℤ) : OpResult ℤ :=
  if 0 ≤ azConverted azimuth ∧ azConverted azimuth ≤ 129600000 then
    let s' : MountState := if az_Reply = 1 then ⟨s.new_Alt, true⟩ else s
    ⟨[Sz_cmd azimuth], s', Except.ok az_Reply⟩
  else ⟨[], s, Except.error PyError.assertionError⟩

/-- `Set_AltAz` (source lines 412-421): `_Set_Altitude` then `_Set_Azimuth`,
returning the pair of acknowledgments. -/
def Set_AltAz (s : MountState) (altitude azimuth : ℚ) (alt_Reply az_Reply : ℤ) :
    OpResult (ℤ × ℤ) :=
  (Set_Altitude s altitude alt_Reply).andThen fun s1 a =>
  (Set_Azimuth s1 azimuth az_Reply).andThen fun s2 z =>
  ⟨[], s2, Except.ok (a, z)⟩

/-- `_Move` (source lines 764-783): `assert self.new_Alt and self.new_Az`
fires before anything else (so on failure nothing is sent and the flags are
untouched); then both flags are cleared, then `":MS#"` is sent and the
one-byte acknowledgment returned as is.  A zero acknowledgment (target
below the altitude limit) only triggers `logger.warning` (line 781): no
exception is raised and 0 is returned like any other value. -/
def Move (s : MountState) (move_Reply : ℤ) : OpResult ℤ :=
  if s.new_Alt = true ∧ s.new_Az = true then
    ⟨[":MS#"], ⟨false, false⟩, Except.ok move_Reply⟩
  else ⟨[], s, Except.error PyError.assertionError⟩

/-- `Go_AltAz` (source lines 635-644): `Set_AltAz` then `_Move`, returning
`(set_Reply, move_Reply)`. -/
def Go_AltAz (s : MountState) (altitude azimuth : ℚ) (alt_Reply az_Reply move_Reply : ℤ) :
    OpResult ((ℤ × ℤ) × ℤ) :=
  (Set_AltAz s altitude azimuth alt_Reply az_Reply).andThen fun s1 p =>
  (Move s1 move_Reply).andThen fun s2 m =>
  ⟨[], s2, Except.ok (p, m)⟩

/-- `Is_At_AltAz` (source lines 689-700): per-axis absolute difference of
the queried target against the position measured via `Get_AltAz`, both
within `margin`.  The measured values are supplied by the transport oracle. -/
def Is_At_AltAz (altitude_Query azimuth_Query altitude_Actual azimuth_Actual margin : ℚ) :
    Bool :=
  decide (|altitude_Actual - altitude_Query| ≤ margin) &&
  decide (|azimuth_Actual - azimuth_Query| ≤ margin)

/-- One evaluation of the `Go_Blocking` while-loop exit condition (source
line 654): `Is_At_AltAz(altitude, azimuth, 0.1) and (self.Is_Stopped)`.
The source writes `self.Is_Stopped` WITHOUT call parentheses: that is the
bound method object, which is always truthy in Python, so the conjunct is
the constant `true` and no status query is made by the loop. -/
def Go_Blocking_guard (altitude azimuth altitude_Actual azimuth_Actual : ℚ) : Bool :=
  Is_At_AltAz altitude azimuth altitude_Actual azimuth_Actual (1 / 10) && true

/-- Source lines 263-265: the `gps_Msgs` dictionary of `Get_StatusInfo`;
`none` models a digit that is not a key (Python would raise `KeyError`). -/
def gps_Msgs (c : Char) : Option String :=
  match c with
  | '0' => some "GPS off"
  | '1' => some "GPS on"
  | '2' => some "GPS working"
  | _ => none

/-- Source lines 267-274: the `system_Msgs` dictionary of `Get_StatusInfo`.
The missing close parenthesis in the value for digit 5 is in the source. -/
def system_Msgs (c : Char) : Option String :=
  match c with
  | '0' => some "stopped (not zeroed)"
  | '1' => some "tracking (PEC disabled)"
  | '2' => some "slewing"
  | '3' => some "guiding"
  | '4' => some "meridian flipping"
  | '5' => some "tracking (PEC enabled"
  | '6' => some "parked"
  | '7' => some "stopped at home"
  | _ => none

/-- Source lines 276-280: the `track_Msgs` dictionary of `Get_StatusInfo`. -/
def track_Msgs (c : Char) : Option String :=
  match c with
  | '0' => some "siderial"
  | '1' => some "lunar"
  | '2' => some "solar"
  | '3' => some "king"
  | '4' => some "custom"
  | _ => none

/-- Source lines 282-290: the `speed_Msgs` dictionary of `Get_StatusInfo`. -/
def speed_Msgs (c : Char) : Option String :=
  match c with
  | '1' => some "1x"
  | '2' => some "2x"
  | '3' => some "8x"
  | '4' => some "16x"
  | '5' => some "64x"
  | '6' => some "128x"
  | '7' => some "256x"
  | '8' => some "512x"
  | '9' => some "max"
  | _ => none

/-- Source lines 292-295: the `time_Msgs` dictionary of `Get_StatusInfo`. -/
def time_Msgs (c : Char) : Option String :=
  match c with
  | '0' => some "unknown"
  | '1' => some "RS232"
  | '2' => some "Hand controller"
  | '3' => some "GPS"
  | _ => none

/-- Source lines 297-298: the `hemi_Msgs` dictionary of `Get_StatusInfo`. -/
def hemi_Msgs (c : Char) : Option String :=
  match c with
  | '0' => some "Southern"
  | '1' => some "Northern"
  | _ => none

/-- `Get_StatusInfo(readable=False)` (source line 316): the raw `:GAS#`
reply with its trailing delimiter stripped, `status[:-1]`.  No digit is
validated on this path. -/
def packedStatus (reply : List Char) : List Char := reply.dropLast

/-- The system-state digit the four predicates read: character 1 of the
packed status, `self.Get_StatusInfo(False)[1]` (source lines 707, 719,
731, 743).  Indexing past the end would be a Python `IndexError`; the
replies of interest all have at least two characters. -/
def systemState (reply : List Char) : Option Char := (packedStatus reply)[1]?

/-- `Is_Homed` (source lines 702-712): system digit equals 7. -/
def Is_Homed (reply : List Char) : Bool :=
  match systemState reply with
  | some c => c == '7'
  | none => false

/-- `Is_Slewing` (source lines 714-724): system digit equals 2. -/
def Is_Slewing (reply : List Char) : Bool :=
  match systemState reply with
  | some c => c == '2'
  | none => false

/-- `Is_Stopped` (source lines 726-736): system digit in `["0", "6", "7"]`. -/
def Is_Stopped (reply : List Char) : Bool :=
  match systemState reply with
  | some c => (['0', '6', '7'] : List Char).contains c
  | none => false

/-- `Is_Tracking` (source lines 738-748): system digit in `["1", "5"]`. -/
def Is_Tracking (reply : List Char) : Bool :=
  match systemState reply with
  | some c => (['1', '5'] : List Char).contains c
  | none => false

/-- The readable dictionary returned by `Get_StatusInfo(readable=True)`
(source lines 308-313), with its six keys as named fields. -/
structure StatusInfo where
  gps : String
  system : String
  track_Rate : String
  move_Speed : String
  time_Source : String
  hemisphere : String
deriving DecidableEq

/-- Python dictionary subscription `m[status[i]]`: `IndexError` when the
reply is too short, `KeyError` when the digit is not a key of the table. -/
def dictGet (m : Char → Option String) (c : Option Char) : Except PyError String :=
  match c with
  | none => Except.error PyError.indexError
  | some ch =>
      match m ch with
      | some v => Except.ok v
      | none => Except.error PyError.keyError

/-- `Get_StatusInfo(readable=True)` (source lines 300-313): the six raw
reply characters are looked up in their tables in source order; the first
unmapped digit raises `KeyError`. -/
def Get_StatusInfo_readable (reply : List Char) : Except PyError StatusInfo := do
  let gps ← dictGet gps_Msgs reply[0]?
  let system ← dictGet system_Msgs reply[1]?
  let track_Rate ← dictGet track_Msgs reply[2]?
  let move_Speed ← dictGet speed_Msgs reply[3]?
  let time_Source ← dictGet time_Msgs reply[4]?
  let hemisphere ← dictGet hemi_Msgs reply[5]?
  pure ⟨gps, system, track_Rate, move_Speed, time_Source, hemisphere⟩

/-- Result of the initialization prefix: commands written and success or
the exception raised. -/
structure InitResult where
  sent : List String
  out : Except PyError Unit
deriving DecidableEq

/-- The `AzMountPro.__init__` handshake (source lines 96-99): send `:V#`,
send `:MountInfo#`, then `assert (version[:-1] == "V1.00") and (model ==
"5035")`.  Only when the assert passes does initialization continue with
further commands; `restSent` stands for whatever that continuation writes
(firmware queries, tracking off, move rate, altitude limit, status, time,
location, homing).  On a mismatch the assert raises and nothing beyond the
two queries is ever written. -/
def init_Handshake (version model : String) (restSent : List String) : InitResult :=
  if version.dropRight 1 = "V1.00" ∧ model = "5035" then
    ⟨[":V#", ":MountInfo#"] ++ restSent, Except.ok ()⟩
  else
    ⟨[":V#", ":MountInfo#"], Except.error PyError.assertionError⟩

end AzMountPro

open AzMountPro

/-- Claim C1: when both staged flags are true, `_Move` clears both flags and
sends `:MS#`, returning the acknowledgment whatever it is; when either flag
is false it raises the staging assertion (the StateError of the spec) with
the state untouched and nothing sent; and a staged flag becomes true exactly
when the corresponding set command acknowledgment equals 1 (the other flag
is never touched by a set command). -/
theorem C1_move_commit_and_staging (s : MountState) (r : ℤ) (alt az : ℚ) :
    (s.new_Alt = true → s.new_Az = true →
      Move s r = ⟨[":MS#"], ⟨false, false⟩, Except.ok r⟩) ∧
    (s.new_Alt = false ∨ s.new_Az = false →
      Move s r = ⟨[], s, Except.error PyError.assertionError⟩) ∧
    (((Set_Altitude s alt r).state.new_Alt = true ↔ (r = 1 ∨ s.new_Alt = true)) ∧
      (Set_Altitude s alt r).state.new_Az = s.new_Az) ∧
    (0 ≤ azConverted az → azConverted az ≤ 129600000 →
      ((Set_Azimuth s az r).state.new_Az = true ↔ (r = 1 ∨ s.new_Az = true)) ∧
      (Set_Azimuth s az r).state.new_Alt = s.new_Alt) := by
  obtain ⟨A, Z⟩ := s
  refine ⟨?_, ?_, ?_, ?_⟩
  · intro h1 h2
    subst h1; subst h2
    simp [Move]
  · intro h
    have hc : ¬(A = true ∧ Z = true) := by
      rcases h with h | h <;> simp at h <;> simp [h]
    simp [Move, hc]
  · by_cases hr : r = 1 <;> simp [Set_Altitude, hr]
  · intro h1 h2
    by_cases hr : r = 1 <;> simp [Set_Azimuth, h1, h2, hr]

/-- Witness for C1 at concrete inputs: a commit with both flags staged and
acknowledgment 0, a commit with only the altitude staged, and the two flag
updates at acknowledgments 1 and 0. -/
theorem C1_move_commit_and_staging_witness :
    Move ⟨true, true⟩ 0 = ⟨[":MS#"], ⟨false, false⟩, Except.ok 0⟩ ∧
    Move ⟨true, false⟩ 1 = ⟨[], ⟨true, false⟩, Except.error PyError.assertionError⟩ ∧
    ((Set_Altitude ⟨false, false⟩ 80 1).state.new_Alt = true ↔ ((1 : ℤ) = 1 ∨ false = true)) ∧
    ((Set_Azimuth ⟨false, false⟩ 190 0).state.new_Az = true ↔ ((0 : ℤ) = 1 ∨ false = true)) := by
  refine ⟨(C1_move_commit_and_staging ⟨true, true⟩ 0 80 190).1 rfl rfl,
    (C1_move_commit_and_staging ⟨true, false⟩ 1 80 190).2.1 (Or.inr rfl),
    ((C1_move_commit_and_staging ⟨false, false⟩ 1 80 190).2.2.1).1,
    ((C1_move_commit_and_staging ⟨false, false⟩ 0 80 190).2.2.2
      (by with_unfolding_all decide) (by with_unfolding_all decide)).1⟩

/-- Counterexample to claim C2: with both set acknowledgments 1 and move
acknowledgment 0 (target below the limit), `Go_AltAz` returns normally with
the value 0 inside `Except.ok` — no exception of any kind (a
RejectedMoveError in particular) reaches the caller; the only rejection
signal is the returned 0. -/
theorem C2_rejected_move_counterexample :
    Go_AltAz ⟨false, false⟩ 80 190 1 1 0 =
      ⟨[":Sa+28800000#", ":Sz068400000#", ":MS#"], ⟨false, false⟩,
        Except.ok ((1, 1), 0)⟩ := by
  with_unfolding_all decide

/-- Claim C2 as amended: an absolute move whose set commands are both
acknowledged returns the move acknowledgment as a plain value paired with
the set replies, for rejection (0) exactly as for acceptance (1): the
caller can distinguish the two by the returned integer, but no
RejectedMoveError is raised (the code only logs a warning on 0). -/
theorem C2_rejection_returned_as_value (s : MountState) (alt az : ℚ) (rM : ℤ)
    (h1 : 0 ≤ azConverted az) (h2 : azConverted az ≤ 129600000) :
    Go_AltAz s alt az 1 1 rM =
      ⟨[Sa_cmd alt, Sz_cmd az, ":MS#"], ⟨false, false⟩, Except.ok ((1, 1), rM)⟩ := by
  obtain ⟨A, Z⟩ := s
  have hA : Set_Altitude ⟨A, Z⟩ alt 1 = ⟨[Sa_cmd alt], ⟨true, Z⟩, Except.ok 1⟩ := rfl
  have hZ : Set_Azimuth ⟨true, Z⟩ az 1 = ⟨[Sz_cmd az], ⟨true, true⟩, Except.ok 1⟩ := by
    unfold Set_Azimuth
    rw [if_pos ⟨h1, h2⟩]
    rfl
  have hM : Move ⟨true, true⟩ rM = ⟨[":MS#"], ⟨false, false⟩, Except.ok rM⟩ := by
    unfold Move
    rw [if_pos ⟨rfl, rfl⟩]
  simp [Go_AltAz, Set_AltAz, OpResult.andThen, hA, hZ, hM]

/-- Witness for the amended C2 at the concrete move of the source test run:
target (80, 190), both set acknowledgments 1, move acknowledgment 0. -/
theorem C2_rejection_returned_as_value_witness :
    Go_AltAz ⟨false, false⟩ 80 190 1 1 0 =
      ⟨[Sa_cmd 80, Sz_cmd 190, ":MS#"], ⟨false, false⟩, Except.ok ((1, 1), 0)⟩ :=
  C2_rejection_returned_as_value ⟨false, false⟩ 80 190 0
    (by with_unfolding_all decide) (by with_unfolding_all decide)

/-- Claim C4 (code bug, evaluation at the failing inputs): `_Set_Altitude`
emits a sign plus exactly 8 digits for nonnegative values, but for negative
values the minus sign is counted inside the 8-character field: -12.34
degrees yields `:Sa-4442400#` (sign plus only 7 digits) and -1 degree
yields `:Sa0-360000#` (zero padding inserted before the minus sign). -/
theorem C4_set_altitude_wire_strings (s : MountState) (r : ℤ) :
    (Set_Altitude s (1234 / 100) r).sent = [":Sa+04442400#"] ∧
    (Set_Altitude s 0 r).sent = [":Sa+00000000#"] ∧
    (Set_Altitude s (-1234 / 100) r).sent = [":Sa-4442400#"] ∧
    (Set_Altitude s (-1) r).sent = [":Sa0-360000#"] := by
  have hs : ∀ x : ℚ, (Set_Altitude s x r).sent = [Sa_cmd x] := fun _ => rfl
  refine ⟨?_, ?_, ?_, ?_⟩ <;> rw [hs] <;> with_unfolding_all decide

/-- Counterexample to claim C5: an azimuth of exactly 360 degrees (the
excluded upper bound of the claimed range) is accepted and sent, and an
altitude of 500 degrees (far outside any protocol range) is also formatted
and sent, because the altitude range assert is commented out. -/
theorem C5_range_check_counterexample :
    Set_Azimuth ⟨false, false⟩ 360 1 = ⟨[":Sz129600000#"], ⟨false, true⟩, Except.ok 1⟩ ∧
    Set_Altitude ⟨false, false⟩ 500 1 = ⟨[":Sa+180000000#"], ⟨true, false⟩, Except.ok 1⟩ := by
  with_unfolding_all decide

/-- Claim C5 as amended: `_Set_Azimuth` raises its range assertion (the
ValidationError of the spec) after unit conversion and before formatting,
writing nothing, exactly when the converted value lies outside the
INCLUSIVE range [0, 129600000] hundredths of arcsec (so azimuth 360 degrees
is accepted); `_Set_Altitude` performs no range validation at all and
always formats and sends. -/
theorem C5_range_validation_as_implemented (s : MountState) (az alt : ℚ) (r : ℤ) :
    (¬(0 ≤ azConverted az ∧ azConverted az ≤ 129600000) →
      Set_Azimuth s az r = ⟨[], s, Except.error PyError.assertionError⟩) ∧
    (0 ≤ azConverted az → azConverted az ≤ 129600000 →
      (Set_Azimuth s az r).sent = [Sz_cmd az] ∧ (Set_Azimuth s az r).out = Except.ok r) ∧
    ((Set_Altitude s alt r).sent = [Sa_cmd alt] ∧ (Set_Altitude s alt r).out = Except.ok r) := by
  refine ⟨?_, ?_, rfl, rfl⟩
  · intro h
    unfold Set_Azimuth
    rw [if_neg h]
  · intro h1 h2
    constructor
    · show (Set_Azimuth s az r).sent = _
      unfold Set_Azimuth
      rw [if_pos ⟨h1, h2⟩]
    · show (Set_Azimuth s az r).out = _
      unfold Set_Azimuth
      rw [if_pos ⟨h1, h2⟩]

/-- Witness for the amended C5: azimuth 400 degrees is rejected with
nothing sent, azimuth 360 degrees is sent, altitude 500 degrees is sent. -/
theorem C5_range_validation_witness :
    Set_Azimuth ⟨false, false⟩ 400 1 = ⟨[], ⟨false, false⟩, Except.error PyError.assertionError⟩ ∧
    ((Set_Azimuth ⟨false, false⟩ 360 1).sent = [Sz_cmd 360] ∧
      (Set_Azimuth ⟨false, false⟩ 360 1).out = Except.ok 1) ∧
    ((Set_Altitude ⟨false, false⟩ 500 1).sent = [Sa_cmd 500] ∧
      (Set_Altitude ⟨false, false⟩ 500 1).out = Except.ok 1) :=
  ⟨(C5_range_validation_as_implemented ⟨false, false⟩ 400 500 1).1
      (by with_unfolding_all decide),
    (C5_range_validation_as_implemented ⟨false, false⟩ 360 500 1).2.1
      (by with_unfolding_all decide) (by with_unfolding_all decide),
    (C5_range_validation_as_implemented ⟨false, false⟩ 400 500 1).2.2⟩

/-- Claim C10: invoking `_Move` with only the altitude staged raises the
staging assertion with both flags untouched (the altitude flag stays true),
so after staging just the azimuth the next commit proceeds and consumes the
stale altitude value. -/
theorem C10_stale_flag_after_failed_commit (r r2 : ℤ) (az : ℚ)
    (h1 : 0 ≤ azConverted az) (h2 : azConverted az ≤ 129600000) :
    Move ⟨true, false⟩ r = ⟨[], ⟨true, false⟩, Except.error PyError.assertionError⟩ ∧
    (Set_Azimuth ⟨true, false⟩ az 1).state = ⟨true, true⟩ ∧
    Move ⟨true, true⟩ r2 = ⟨[":MS#"], ⟨false, false⟩, Except.ok r2⟩ := by
  refine ⟨?_, ?_, ?_⟩
  · have hc : ¬((true : Bool) = true ∧ (false : Bool) = true) := by simp
    unfold Move
    rw [if_neg hc]
  · unfold Set_Azimuth
    rw [if_pos ⟨h1, h2⟩]
    rfl
  · unfold Move
    rw [if_pos ⟨rfl, rfl⟩]

/-- Witness for C10 at azimuth 190 degrees, with move acknowledgments 0 and
then 1. -/
theorem C10_stale_flag_witness :
    Move ⟨true, false⟩ 0 = ⟨[], ⟨true, false⟩, Except.error PyError.assertionError⟩ ∧
    (Set_Azimuth ⟨true, false⟩ 190 1).state = ⟨true, true⟩ ∧
    Move ⟨true, true⟩ 1 = ⟨[":MS#"], ⟨false, false⟩, Except.ok 1⟩ :=
  C10_stale_flag_after_failed_commit 0 1 190
    (by with_unfolding_all decide) (by with_unfolding_all decide)

/-- Claim C3 (code bug, evaluation at the failing input): the `Go_Blocking`
loop guard equals the position check alone — the conjunct written as
`self.Is_Stopped` is the bound method object, always truthy, so the guard
never consults the stopped predicate.  In particular at target (80, 190)
with the mount reporting position (80, 190) while its status digit is 2
(slewing), the guard is already true and the loop exits even though
`Is_Stopped` on that status is false. -/
theorem C3_blocking_guard_ignores_stopped :
    (∀ altQ azQ altA azA : ℚ,
      Go_Blocking_guard altQ azQ altA azA = Is_At_AltAz altQ azQ altA azA (1 / 10)) ∧
    Go_Blocking_guard 80 190 80 190 = true ∧
    Is_Stopped ['0', '2', '0', '1', '0', '0', '#'] = false := by
  refine ⟨fun altQ azQ altA azA => Bool.and_true _, ?_, by decide⟩
  with_unfolding_all decide

/-- Claim C6: on any 6-digit status reply (delimiter included), the four
predicates are each determined by the system-state digit alone: homed
exactly on digit 7, slewing exactly on digit 2, stopped exactly on digits
0, 6, 7, tracking exactly on digits 1, 5; concretely digit 7 gives homed
and stopped, digit 2 gives slewing and not stopped. -/
theorem C6_status_predicate_digits (a b c d e f : Char) :
    Is_Homed [a, b, c, d, e, f, '#'] = (b == '7') ∧
    Is_Slewing [a, b, c, d, e, f, '#'] = (b == '2') ∧
    Is_Stopped [a, b, c, d, e, f, '#'] = (b == '0' || b == '6' || b == '7') ∧
    Is_Tracking [a, b, c, d, e, f, '#'] = (b == '1' || b == '5') ∧
    Is_Homed ['0', '7', '0', '1', '0', '0', '#'] = true ∧
    Is_Stopped ['0', '7', '0', '1', '0', '0', '#'] = true ∧
    Is_Slewing ['0', '2', '0', '1', '0', '0', '#'] = true ∧
    Is_Stopped ['0', '2', '0', '1', '0', '0', '#'] = false := by
  have hsys : systemState [a, b, c, d, e, f, '#'] = some b := rfl
  refine ⟨?_, ?_, ?_, ?_, by decide, by decide, by decide, by decide⟩
  · simp only [Is_Homed, hsys]
  · simp only [Is_Slewing, hsys]
  · simp only [Is_Stopped, hsys]
    cases h0 : b == '0' <;> cases h6 : b == '6' <;> cases h7 : b == '7' <;>
      simp [List.contains, List.elem, h0, h6, h7]
  · simp only [Is_Tracking, hsys]
    cases h1 : b == '1' <;> cases h5 : b == '5' <;>
      simp [List.contains, List.elem, h1, h5]

/-- Claim C8: if the version reply (with its delimiter stripped) is not
V1.00 or the model reply is not 5035, initialization raises the handshake
assertion (the HandshakeError of the spec) and nothing beyond the two
handshake queries is ever written, whatever the rest of the initialization
would have sent. -/
theorem C8_handshake_mismatch_aborts (version model : String) (restSent : List String)
    (h : ¬(version.dropRight 1 = "V1.00" ∧ model = "5035")) :
    init_Handshake version model restSent =
      ⟨[":V#", ":MountInfo#"], Except.error PyError.assertionError⟩ := by
  unfold init_Handshake
  rw [if_neg h]

/-- Witness for C8: a version reply of V2.00 with the correct model, and a
continuation that would have sent the firmware query. -/
theorem C8_handshake_mismatch_witness :
    init_Handshake "V2.00#" "5035" [":FW1#"] =
      ⟨[":V#", ":MountInfo#"], Except.error PyError.assertionError⟩ :=
  C8_handshake_mismatch_aborts "V2.00#" "5035" [":FW1#"] (by decide)

/-- Counterexample to claim C7: on the status reply with the unmapped
system digit 8, all four predicates silently return false (they read the
unvalidated packed reply), even though the readable decoding of the same
reply does raise `KeyError`. -/
theorem C7_unmapped_digit_counterexample :
    Is_Stopped ['0', '8', '0', '1', '0', '0', '#'] = false ∧
    Is_Slewing ['0', '8', '0', '1', '0', '0', '#'] = false ∧
    Is_Homed ['0', '8', '0', '1', '0', '0', '#'] = false ∧
    Is_Tracking ['0', '8', '0', '1', '0', '0', '#'] = false ∧
    Get_StatusInfo_readable ['0', '8', '0', '1', '0', '0', '#'] =
      Except.error PyError.keyError := by
  decide

/-- Claim C7 as amended: only the readable decoding path validates digits —
with a mapped GPS digit and an unmapped system digit it raises `KeyError`
(the ProtocolError of the spec); the four derived predicates bypass that
path, never raise, and silently return false for an unmapped system digit. -/
theorem C7_unmapped_digit_behavior (a b c d e f : Char)
    (hg : (gps_Msgs a).isSome = true) (hb : system_Msgs b = none) :
    Get_StatusInfo_readable [a, b, c, d, e, f, '#'] = Except.error PyError.keyError ∧
    Is_Stopped [a, b, c, d, e, f, '#'] = false ∧
    Is_Slewing [a, b, c, d, e, f, '#'] = false ∧
    Is_Homed [a, b, c, d, e, f, '#'] = false ∧
    Is_Tracking [a, b, c, d, e, f, '#'] = false := by
  have hsys : systemState [a, b, c, d, e, f, '#'] = some b := rfl
  have hne : ∀ x : Char, system_Msgs x ≠ none → (b == x) = false := by
    intro x hx
    cases h : b == x
    · rfl
    · exact absurd hb (by rw [beq_iff_eq.mp h]; exact hx)
  refine ⟨?_, ?_, ?_, ?_, ?_⟩
  · obtain ⟨g, hgg⟩ := Option.isSome_iff_exists.mp hg
    simp [Get_StatusInfo_readable, dictGet, hgg, hb]
    rfl
  · simp only [Is_Stopped, hsys]
    simp [List.contains, List.elem,
      hne '0' (by simp [system_Msgs]), hne '6' (by simp [system_Msgs]),
      hne '7' (by simp [system_Msgs])]
  · simp only [Is_Slewing, hsys]
    simp [hne '2' (by simp [system_Msgs])]
  · simp only [Is_Homed, hsys]
    simp [hne '7' (by simp [system_Msgs])]
  · simp only [Is_Tracking, hsys]
    simp [List.contains, List.elem,
      hne '1' (by simp [system_Msgs]), hne '5' (by simp [system_Msgs])]

/-- Witness for the amended C7 at the concrete reply 080100 followed by the
delimiter: GPS digit 0 is mapped, system digit 8 is not. -/
theorem C7_unmapped_digit_behavior_witness :
    Get_StatusInfo_readable ['0', '8', '0', '1', '0', '0', '#'] =
      Except.error PyError.keyError ∧
    Is_Stopped ['0', '8', '0', '1', '0', '0', '#'] = false ∧
    Is_Slewing ['0', '8', '0', '1', '0', '0', '#'] = false ∧
    Is_Homed ['0', '8', '0', '1', '0', '0', '#'] = false ∧
    Is_Tracking ['0', '8', '0', '1', '0', '0', '#'] = false :=
  C7_unmapped_digit_behavior '0' '8' '0' '1' '0' '0' rfl rfl

/-- Claim C9: every ordered pair among arcsecond, degree and radian, when
converted by the corresponding pure converter function and back, reproduces
the input exactly over the reals, hence in particular within the 1e-6
tolerance; the converters are total pure functions with no failure modes. -/
theorem C9_unit_converter_roundtrips (x : ℝ) :
    |ArcSec_To_Degrees (Degrees_To_Arcsec x) - x| ≤ 1 / 1000000 ∧
    |Degrees_To_Arcsec (ArcSec_To_Degrees x) - x| ≤ 1 / 1000000 ∧
    |Degrees_To_Radians (Radians_To_Degrees x) - x| ≤ 1 / 1000000 ∧
    |Radians_To_Degrees (Degrees_To_Radians x) - x| ≤ 1 / 1000000 ∧
    |ArcSec_To_Radians (Radians_To_Arcsec x) - x| ≤ 1 / 1000000 ∧
    |Radians_To_Arcsec (ArcSec_To_Radians x) - x| ≤ 1 / 1000000 := by
  have e1 : ArcSec_To_Degrees (Degrees_To_Arcsec x) = x := by
    unfold ArcSec_To_Degrees Degrees_To_Arcsec
    field_simp
  have e2 : Degrees_To_Arcsec (ArcSec_To_Degrees x) = x := by
    unfold ArcSec_To_Degrees Degrees_To_Arcsec
    field_simp
  have e3 : Degrees_To_Radians (Radians_To_Degrees x) = x := by
    unfold Degrees_To_Radians Radians_To_Degrees math.radians math.degrees
    field_simp
  have e4 : Radians_To_Degrees (Degrees_To_Radians x) = x := by
    unfold Degrees_To_Radians Radians_To_Degrees math.radians math.degrees
    field_simp
  have e5 : ArcSec_To_Radians (Radians_To_Arcsec x) = x := by
    unfold ArcSec_To_Radians Radians_To_Arcsec math.radians math.degrees
    field_simp
    ring
  have e6 : Radians_To_Arcsec (ArcSec_To_Radians x) = x := by
    unfold ArcSec_To_Radians Radians_To_Arcsec math.radians math.degrees
    field_simp
    ring
  have key : ∀ y : ℝ, y = x → |y - x| ≤ 1 / 1000000 := by
    intro y hy
    rw [hy, sub_self, abs_zero]
    norm_num
  exact ⟨key _ e1, key _ e2, key _ e3, key _ e4, key _ e5, key _ e6⟩
